import Mathlib

/-!
Verification of the CV-analysis orchestration and result-normalization
pipeline of the Hirelytics backend (`src/my_agent/agent.py`).

The Python code is shallowly embedded as follows.

* Python/JSON values (the dictionaries produced by `json.loads`, stored in
  Firestore and returned by the endpoints) are modelled by the inductive
  type `Json`; Python `dict.get` is `Json.get` / `List.lookup`.
* `HirelyticsAgent.analyze` is `analyze`.  The external collaborators are
  parameters: the optional GenAI client (`self.client`) is an
  `Option (String → GenOutcome)` where `GenOutcome` records whether the
  `generate_content` call raised or returned text, and the JSON parser
  (`json.loads`, a library function that either raises or returns a value)
  is a parameter `loads : String → Except String Json`.
* The markdown-fence cleanup inside `analyze` (`text.strip()`, the
  `startswith("```json")` / `endswith("```")` slicing, and the final
  `strip()` before `json.loads`) is `fenceClean` over `List Char`, with
  `pyStrip` mirroring Python `str.strip()`.
* `HirelyticsAgent._mock_response` is `_mock_response`.
* The `get_jobs` endpoint body is `getJobsBody` (in `Except`, so that the
  places where the Python code can raise — attribute access `.get` on a
  non-dict — are explicit) and `get_jobs` is the surrounding
  `try/except`-to-empty-list wrapper.
* The repository also contains (per its specification) a retry policy with
  linear backoff; that component is not part of this source revision, so it
  is modelled from the specification text (see `RetryPolicy.execute`).
-/

/-- JSON-ish values: the dynamic dictionaries the Python code passes around. -/
inductive Json where
  | null : Json
  | bool (b : Bool) : Json
  | num (n : Int) : Json
  | str (s : String) : Json
  | arr (elems : List Json) : Json
  | obj (fields : List (String × Json)) : Json

/-- Python `d.get(k)` on a dict value (`None`, i.e. `none`, when absent or
when the value is not a dict at all). -/
def Json.get (j : Json) (k : String) : Option Json :=
  match j with
  | .obj kvs => kvs.lookup k
  | _ => none

/-- Top-level key list of a dict value (used to state which fields a result
carries). -/
def keysOf (j : Json) : List String :=
  match j with
  | .obj kvs => kvs.map Prod.fst
  | _ => []

/-- Two-level field access `j[k1][k2]` via `dict.get`. -/
def getPath2 (j : Json) (k1 k2 : String) : Option Json :=
  (j.get k1).bind (fun x => Json.get x k2)

/-- Python truthiness of a JSON value (`if c.get('analysis_result'):`). -/
def pyTruthy (j : Json) : Bool :=
  match j with
  | .null => false
  | .bool b => b
  | .num n => !(n == 0)
  | .str s => !(s == "")
  | .arr xs => !xs.isEmpty
  | .obj kvs => !kvs.isEmpty

/-- Python `str(x)` on an optional error message; `str(None) = "None"`,
which is what the f-string in `_mock_response` interpolates when `analyze`
is called with no client configured. -/
def pyStr (e : Option String) : String :=
  match e with
  | none => "None"
  | some s => s

/-- The whitespace set of Python `str.strip()`. -/
def isPySpace (c : Char) : Bool :=
  c == ' ' || c == '\t' || c == '\n' || c == '\r' || c == '\x0b' || c == '\x0c'

/-- Remove trailing Python whitespace. -/
def stripEnd (cs : List Char) : List Char :=
  (cs.reverse.dropWhile isPySpace).reverse

/-- Python `str.strip()` on a character list. -/
def pyStrip (cs : List Char) : List Char :=
  stripEnd (cs.dropWhile isPySpace)

/-- The backtick character (written via its code point). -/
def btick : Char := Char.ofNat 96

/-- The 7-character marker checked by `text.startswith("```json")`. -/
def ticksJson : List Char := [btick, btick, btick, 'j', 's', 'o', 'n']

/-- The 3-character marker checked by `text.endswith("```")`. -/
def ticks : List Char := [btick, btick, btick]

/-- The markdown cleanup done in `HirelyticsAgent.analyze` before
`json.loads`: `text = response.text.strip()`, then
`if text.startswith("```json"): text = text[7:]`, then
`if text.endswith("```"): text = text[:-3]`, then `json.loads(text.strip())`. -/
def fenceClean (cs : List Char) : List Char :=
  let t0 := pyStrip cs
  let t1 := if ticksJson.isPrefixOf t0 then t0.drop 7 else t0
  let t2 := if ticks.isSuffixOf t1 then t1.take (t1.length - 3) else t1
  pyStrip t2

/-- Wrapping a response text in a leading ```json marker plus newline and a
trailing newline plus ``` marker, as in the specification example. -/
def fenceWrap (cs : List Char) : List Char :=
  (ticksJson ++ ['\n']) ++ cs ++ ('\n' :: ticks)

/-- `HirelyticsAgent._mock_response(name, error=None)`: the deterministic
fallback dictionary. -/
def _mock_response (name : String) (error : Option String) : Json :=
  Json.obj [
    ("candidate_name", .str name),
    ("scores", .obj [
      ("total_score", .num 75),
      ("skill_match", .num 70),
      ("experience_match", .num 80),
      ("keyword_match", .num 75)]),
    ("analysis", .obj [
      ("summary", .str ("Mock analiz (API hatası veya yok: " ++ pyStr error ++ ")")),
      ("strengths", .arr [.str "Python", .str "Analitik"]),
      ("missing_skills", .arr [.str "Docker"])])]

/-- The f-string prompt template rendered by `HirelyticsAgent.analyze`
(literal braces written via their code points). -/
def prompt (job_desc cv_text candidate_name : String) : String :=
  "\n           Sen bir işe alım uzmanısın. Aşağıdaki iş tanımı ve CV\x27yi analiz et.\n\n"
  ++ "           İŞ TANIMI:\n           " ++ job_desc ++ "\n\n"
  ++ "           ADAY CV\x27Sİ (" ++ candidate_name ++ "):\n           " ++ cv_text ++ "\n\n"
  ++ "           ÇIKTI FORMATI (Sadece saf JSON döndür, markdown kullanma):\n"
  ++ "           \x7b\n"
  ++ "               \"candidate_name\": \"" ++ candidate_name ++ "\",\n"
  ++ "               \"scores\": \x7b\n"
  ++ "                   \"skill_match\": 0-100,\n"
  ++ "                   \"experience_match\": 0-100,\n"
  ++ "                   \"keyword_match\": 0-100,\n"
  ++ "                   \"total_score\": 0-100\n"
  ++ "               \x7d,\n"
  ++ "               \"analysis\": \x7b\n"
  ++ "                   \"summary\": \"Kısa özet\",\n"
  ++ "                   \"strengths\": [\"güçlü yön 1\", \"güçlü yön 2\"],\n"
  ++ "                   \"missing_skills\": [\"eksik 1\", \"eksik 2\"]\n"
  ++ "               \x7d\n"
  ++ "           \x7d\n           "

/-- Outcome of one `client.models.generate_content(...).text` interaction:
either some exception was raised (its `str(e)` message recorded), or a
response text was produced. -/
inductive GenOutcome where
  | raise (msg : String) : GenOutcome
  | ok (text : String) : GenOutcome

/-- `HirelyticsAgent.analyze(job_desc, cv_text, candidate_name)`.
`client` models `self.client` (`None` when GenAI or the API key is
missing); `loads` models `json.loads` on the cleaned text (returning
`.error str_e` when it raises).  The `try/except Exception` block maps every
raised error `e` to `_mock_response(candidate_name, str(e))`. -/
def analyze (loads : String → Except String Json)
    (client : Option (String → GenOutcome))
    (job_desc cv_text candidate_name : String) : Json :=
  match client with
  | none => _mock_response candidate_name none
  | some gen =>
    match gen (prompt job_desc cv_text candidate_name) with
    | .raise e => _mock_response candidate_name (some e)
    | .ok text =>
      match loads (String.mk (fenceClean text.toList)) with
      | .error e => _mock_response candidate_name (some e)
      | .ok j => j

/-- Python dict assignment `d[k] = v` (replace in place, else append). -/
def setKey : List (String × Json) → String → Json → List (String × Json)
  | [], k, v => [(k, v)]
  | (k', v') :: rest, k, v =>
    if k' == k then (k, v) :: rest else (k', v') :: setKey rest k v

/-- Python attribute access `.get` is only available on dicts; on any other
value it raises `AttributeError` (which the surrounding `try` turns into an
empty job list). -/
def asDict (j : Json) : Except String (List (String × Json)) :=
  match j with
  | .obj kvs => .ok kvs
  | _ => .error "AttributeError"

/-- The dictionary literal appended to `results` in `get_jobs` for one
candidate `c` with analysis dict `res`, scores dict `scores` and analysis
sub-dict `analysis`: the snake_case → camelCase field mapping with
defaults. -/
def projEntry (c res scores analysis : List (String × Json)) : Json :=
  Json.obj [
    ("candidateName",
      match res.lookup "candidate_name" with
      | some v => v
      | none => (c.lookup "name").getD Json.null),
    ("scores", Json.obj [
      ("totalScore", (scores.lookup "total_score").getD (Json.num 0)),
      ("skillMatch", (scores.lookup "skill_match").getD (Json.num 0)),
      ("experienceMatch", (scores.lookup "experience_match").getD (Json.num 0)),
      ("keywordMatch", (scores.lookup "keyword_match").getD (Json.num 0))]),
    ("analysis", Json.obj [
      ("summary", (analysis.lookup "summary").getD (Json.str "Özet yok")),
      ("strengths", (analysis.lookup "strengths").getD (Json.arr [])),
      ("missingSkills", (analysis.lookup "missing_skills").getD (Json.arr []))]),
    ("isError", Json.bool false)]

/-- One loop iteration of the `for c in candidates` projection in
`get_jobs`: `if c.get('analysis_result'):` (Python truthiness — absent and
`None` are both falsy) guards the construction of a display entry;
`res.get(...)`/`scores.get(...)`/`analysis.get(...)` raise when the stored
value is not a dict. -/
def projectCandidate (c : List (String × Json)) : Except String (Option Json) := do
  let r := (c.lookup "analysis_result").getD Json.null
  if pyTruthy r then
    let res ← asDict r
    let scores ← asDict ((res.lookup "scores").getD (Json.obj []))
    let analysis ← asDict ((res.lookup "analysis").getD (Json.obj []))
    pure (some (projEntry c res scores analysis))
  else
    pure none

/-- The whole `results` list built by `get_jobs` for one job's candidate
list (in order; the first raising candidate aborts the endpoint body). -/
def projectResults : List (List (String × Json)) → Except String (List Json)
  | [] => .ok []
  | c :: rest => do
    let e ← projectCandidate c
    let r ← projectResults rest
    pure (match e with | some x => x :: r | none => r)

/-- One candidate document as streamed from Firestore: its document id and
its `to_dict()` payload. -/
structure CandidateDoc where
  id : String
  data : List (String × Json)

/-- One job document: id, `to_dict()` payload, and its `candidates`
subcollection. -/
structure JobDoc where
  id : String
  data : List (String × Json)
  candidates : List CandidateDoc

/-- `c_data = c.to_dict(); c_data['id'] = c.id`. -/
def candDict (c : CandidateDoc) : List (String × Json) :=
  setKey c.data "id" (.str c.id)

/-- The per-job work of `get_jobs`: set `id`, collect candidates, set
`candidates`, build the camelCase `results`, set `analysisResults`. -/
def buildJob (j : JobDoc) : Except String Json := do
  let jd := setKey j.data "id" (.str j.id)
  let cands := j.candidates.map candDict
  let jd := setKey jd "candidates" (.arr (cands.map Json.obj))
  let results ← projectResults cands
  pure (Json.obj (setKey jd "analysisResults" (.arr results)))

/-- The body of the `get_jobs` endpoint (everything inside its `try`). -/
def getJobsBody : List JobDoc → Except String (List Json)
  | [] => .ok []
  | j :: rest => do
    let x ← buildJob j
    let r ← getJobsBody rest
    pure (x :: r)

/-- The `get_jobs` endpoint: the `try/except` wrapper that converts any
exception raised while reading or projecting stored records into an empty
list. -/
def get_jobs (docs : List JobDoc) : List Json :=
  match getJobsBody docs with
  | .ok r => r
  | .error _ => []

/-- Length of an array value (used to state sizes of projection lists). -/
def arrLen (j : Json) : Option Nat :=
  match j with
  | .arr xs => some xs.length
  | _ => none

/-- Error kinds of the retry policy, from the specification's taxonomy. -/
inductive ErrorKind where
  | QuotaExhausted : ErrorKind
  | UpstreamFailure : ErrorKind

/-- Modelled from the spec: the outcome of one backend generation call as
seen by the retry policy — success, a failure classified as rate-limited by
the rate-limit/quota marker inspection, or any other failure.  The retry
component itself is not part of this source revision (`analyze` here calls
the backend exactly once inside its `try`), so the policy is taken from the
specification text. -/
inductive CallResult where
  | ok (response : String) : CallResult
  | rateLimited (msg : String) : CallResult
  | failed (msg : String) : CallResult

/-- Trace of one `RetryPolicy.execute` run: how many attempts were made,
the recorded sleep durations (seconds) between attempts, and the final
outcome. -/
structure RetryTrace where
  attempts : Nat
  sleeps : List Nat
  outcome : Except ErrorKind String

/-- Modelled from the spec: `maxAttempts (3)`. -/
def RetryPolicy.maxAttempts : Nat := 3

/-- Modelled from the spec: `backoffBaseSeconds` (30). -/
def RetryPolicy.backoffBaseSeconds : Nat := 30

/-- Modelled from the spec: the retry state machine.  `attempt` runs from 1;
on success return immediately; on a rate-limited failure sleep
`backoffBaseSeconds * attempt` and retry while `attempt < maxAttempts`,
failing with `QuotaExhausted` on the last attempt; on any other failure fail
immediately with `UpstreamFailure`.  `fuel` bounds the recursion and is
started at `maxAttempts`, which the loop never exceeds. -/
def retryAux (call : Nat → CallResult) (attempt : Nat) (fuel : Nat)
    (sleeps : List Nat) : RetryTrace :=
  match fuel with
  | 0 => ⟨attempt - 1, sleeps, .error .QuotaExhausted⟩
  | fuel' + 1 =>
    match call attempt with
    | .ok r => ⟨attempt, sleeps, .ok r⟩
    | .failed _ => ⟨attempt, sleeps, .error .UpstreamFailure⟩
    | .rateLimited _ =>
      if attempt < RetryPolicy.maxAttempts then
        retryAux call (attempt + 1) fuel'
          (sleeps ++ [RetryPolicy.backoffBaseSeconds * attempt])
      else ⟨attempt, sleeps, .error .QuotaExhausted⟩

/-- Modelled from the spec: `RetryPolicy.execute(callable)`, where the
callable is indexed by the attempt number it is invoked on. -/
def RetryPolicy.execute (call : Nat → CallResult) : RetryTrace :=
  retryAux call 1 RetryPolicy.maxAttempts []

/-- A `json.loads` stand-in that always raises (used to instantiate the
universally quantified parser parameter on concrete failure paths). -/
def loads0 : String → Except String Json := fun _ => .error "bad json"

/-- A backend stub whose generation call always raises. -/
def genRaise : String → GenOutcome := fun _ => .raise "boom"

/-- A backend stub whose generation call returns non-JSON text. -/
def genOk : String → GenOutcome := fun _ => .ok "notjson"

/-- A backend stub that reports a rate-limit error on every attempt. -/
def stubRL : Nat → CallResult := fun _ => .rateLimited "429 RESOURCE_EXHAUSTED"

/-- A backend stub that reports a non-rate-limit error on every attempt. -/
def stubUF : Nat → CallResult := fun _ => .failed "500 internal error"

/-- A stored candidate whose analysis result has an out-of-range
`skill_match` of 150 and no other fields. -/
def cBad3 : List (String × Json) :=
  [("analysis_result", Json.obj [("scores", Json.obj [("skill_match", Json.num 150)])])]

/-- The display entry `get_jobs` builds for `cBad3`: the stored 150 passes
through unclamped, and the entry has an `isError` field but no `isMock`. -/
def eBad3 : Json :=
  Json.obj [
    ("candidateName", Json.null),
    ("scores", Json.obj [
      ("totalScore", Json.num 0),
      ("skillMatch", Json.num 150),
      ("experienceMatch", Json.num 0),
      ("keywordMatch", Json.num 0)]),
    ("analysis", Json.obj [
      ("summary", Json.str "Özet yok"),
      ("strengths", Json.arr []),
      ("missingSkills", Json.arr [])]),
    ("isError", Json.bool false)]

/-- A stored candidate with a (partial) analysis result. -/
def sampleCand1 : List (String × Json) :=
  [("name", Json.str "Ali"),
   ("analysis_result", Json.obj [
     ("candidate_name", Json.str "Ali"),
     ("scores", Json.obj [("total_score", Json.num 80)])])]

/-- A stored candidate with `analysis_result = None`. -/
def sampleCand2 : List (String × Json) :=
  [("name", Json.str "Veli"), ("analysis_result", Json.null)]

/-- A stored job holding `sampleCand1` and `sampleCand2`. -/
def sampleJob : JobDoc :=
  ⟨"job1", [("title", Json.str "Dev")], [⟨"c1", sampleCand1⟩, ⟨"c2", sampleCand2⟩]⟩

/-- The single display entry `get_jobs` produces for `sampleJob`. -/
def sampleEntry : Json :=
  Json.obj [
    ("candidateName", Json.str "Ali"),
    ("scores", Json.obj [
      ("totalScore", Json.num 80),
      ("skillMatch", Json.num 0),
      ("experienceMatch", Json.num 0),
      ("keywordMatch", Json.num 0)]),
    ("analysis", Json.obj [
      ("summary", Json.str "Özet yok"),
      ("strengths", Json.arr []),
      ("missingSkills", Json.arr [])]),
    ("isError", Json.bool false)]

/-- The specification's fence-stripping example payload, as characters. -/
def bobBare : List Char := "\x7b\"candidate_name\":\"Bob\"\x7d".toList

/-! ## Support lemmas about Python-style stripping -/

theorem dropWhile_idem {α : Type} (p : α → Bool) (l : List α) :
    (l.dropWhile p).dropWhile p = l.dropWhile p := by
  induction l with
  | nil => rfl
  | cons a l ih =>
    cases h : p a
    · simp [List.dropWhile_cons, h]
    · simp [List.dropWhile_cons, h, ih]

theorem dropWhile_head_false {α : Type} {p : α → Bool} {l t : List α} {a : α}
    (h : l.dropWhile p = a :: t) : p a = false := by
  induction l with
  | nil => simp [List.dropWhile] at h
  | cons b l ih =>
    cases hb : p b
    · rw [List.dropWhile_cons, hb] at h
      simp at h
      obtain ⟨rfl, rfl⟩ := h
      exact hb
    · rw [List.dropWhile_cons, hb] at h
      simp at h
      exact ih h

theorem stripEnd_isPre (t : List Char) : stripEnd t <+: t := by
  obtain ⟨x, hx⟩ := List.dropWhile_suffix (l := t.reverse) (p := isPySpace)
  refine ⟨x.reverse, ?_⟩
  have h := congrArg List.reverse hx
  simpa [stripEnd] using h

theorem dropWhile_stripEnd (t : List Char) (h : t.dropWhile isPySpace = t) :
    (stripEnd t).dropWhile isPySpace = stripEnd t := by
  cases hs : stripEnd t with
  | nil => rfl
  | cons a u =>
    obtain ⟨x, hx⟩ := stripEnd_isPre t
    rw [hs] at hx
    have ha : isPySpace a = false := by
      apply dropWhile_head_false (l := t) (t := u ++ x)
      rw [h, ← hx]
      rfl
    rw [List.dropWhile_cons, ha]
    simp

theorem pyStrip_idem (l : List Char) : pyStrip (pyStrip l) = pyStrip l := by
  unfold pyStrip
  rw [dropWhile_stripEnd _ (dropWhile_idem _ _)]
  unfold stripEnd
  rw [List.reverse_reverse, dropWhile_idem]

theorem pyStrip_cons_space {c : Char} (hc : isPySpace c = true) (l : List Char) :
    pyStrip (c :: l) = pyStrip l := by
  unfold pyStrip
  rw [List.dropWhile_cons, hc]
  simp

theorem stripEnd_append_space {c : Char} (hc : isPySpace c = true) (l : List Char) :
    stripEnd (l ++ [c]) = stripEnd l := by
  unfold stripEnd
  simp [List.reverse_append, List.dropWhile_cons, hc]

theorem pyStrip_append_space {c : Char} (hc : isPySpace c = true) (l : List Char) :
    pyStrip (l ++ [c]) = pyStrip l := by
  unfold pyStrip
  rw [List.dropWhile_append]
  cases he : (l.dropWhile isPySpace).isEmpty
  · simp only [he, Bool.false_eq_true, if_false]
    exact stripEnd_append_space hc _
  · have hl : l.dropWhile isPySpace = [] := by
      simpa [List.isEmpty_iff] using he
    simp [he, hl, List.dropWhile_cons, hc]

theorem pyStrip_fixed_of (l : List Char) (h1 : l.dropWhile isPySpace = l)
    (h2 : l.reverse.dropWhile isPySpace = l.reverse) : pyStrip l = l := by
  simp [pyStrip, stripEnd, h1, h2]

theorem dropWhile_cons_nospace {c : Char} (hc : isPySpace c = false) (l : List Char) :
    (c :: l).dropWhile isPySpace = c :: l := by
  simp [List.dropWhile_cons, hc]

theorem pyStrip_fenceWrap (s : List Char) : pyStrip (fenceWrap s) = fenceWrap s := by
  apply pyStrip_fixed_of
  · exact dropWhile_cons_nospace (c := btick) rfl _
  · have hrev : (fenceWrap s).reverse =
        btick :: (btick :: btick :: '\n' ::
          (s.reverse ++ ['\n', 'n', 'o', 's', 'j', btick, btick, btick])) := by
      simp [fenceWrap, ticksJson, ticks]
    rw [hrev]
    exact dropWhile_cons_nospace (c := btick) rfl _

theorem fenceClean_fenceWrap (s : List Char) :
    fenceClean (fenceWrap s) = pyStrip s := by
  simp only [fenceClean]
  rw [pyStrip_fenceWrap]
  have hpre : ticksJson.isPrefixOf (fenceWrap s) = true := by
    rw [List.isPrefixOf_iff_prefix]
    exact ⟨'\n' :: (s ++ ('\n' :: ticks)), by simp [fenceWrap, List.append_assoc]⟩
  rw [hpre]
  have hdrop : (fenceWrap s).drop 7 = '\n' :: (s ++ ('\n' :: ticks)) := by
    simp [fenceWrap, ticksJson, ticks]
  simp only [if_true, hdrop]
  have hassoc : '\n' :: (s ++ ('\n' :: ticks)) = ('\n' :: (s ++ ['\n'])) ++ ticks := by
    simp
  have hsuf : ticks.isSuffixOf ('\n' :: (s ++ ('\n' :: ticks))) = true := by
    rw [List.isSuffixOf_iff_suffix, hassoc]
    exact List.suffix_append _ _
  rw [hsuf]
  simp only [if_true]
  have htake : ('\n' :: (s ++ ('\n' :: ticks))).take
      (('\n' :: (s ++ ('\n' :: ticks))).length - 3) = '\n' :: (s ++ ['\n']) := by
    rw [hassoc]
    have hlen : (('\n' :: (s ++ ['\n'])) ++ ticks).length - 3 =
        ('\n' :: (s ++ ['\n'])).length := by
      simp [ticks]
    rw [hlen]
    exact List.take_left _ _
  rw [htake]
  rw [pyStrip_cons_space (c := '\n') rfl, pyStrip_append_space (c := '\n') rfl]

theorem fenceClean_no_fences (s : List Char)
    (h1 : ticksJson.isPrefixOf (pyStrip s) = false)
    (h2 : ticks.isSuffixOf (pyStrip s) = false) :
    fenceClean s = pyStrip s := by
  simp only [fenceClean, h1, h2, Bool.false_eq_true, if_false]
  exact pyStrip_idem s

/-- C6: stripping the optional markdown code-fence markers is
semantics-preserving.  A backend response wrapped in a leading ```json
marker and a trailing ``` marker is cleaned by `analyze` to the very same
character sequence as the identical response without the markers, so
`json.loads` (any parser function) receives the same text and yields the
same structural object.  The hypotheses say the bare response does not
itself begin or end with fence markers after stripping. -/
theorem fence_stripping_preserves_parse (s : List Char)
    (h1 : ticksJson.isPrefixOf (pyStrip s) = false)
    (h2 : ticks.isSuffixOf (pyStrip s) = false) :
    fenceClean (fenceWrap s) = fenceClean s ∧
    ∀ loads : String → Except String Json,
      loads (String.mk (fenceClean (fenceWrap s))) = loads (String.mk (fenceClean s)) := by
  have h := (fenceClean_fenceWrap s).trans (fenceClean_no_fences s h1 h2).symm
  exact ⟨h, fun loads => by rw [h]⟩

/-- Witness for C6 at the specification's concrete example: the input
raw text ```json-fenced `{"candidate_name":"Bob"}` cleans to the same
text as the bare `{"candidate_name":"Bob"}`. -/
theorem fence_stripping_preserves_parse_witness :
    fenceWrap bobBare = ("```json\n\x7b\"candidate_name\":\"Bob\"\x7d\n```").toList ∧
    fenceClean (fenceWrap bobBare) = fenceClean bobBare :=
  ⟨by decide, (fence_stripping_preserves_parse bobBare (by decide) (by decide)).1⟩

/-- C1: the analysis entry point is total and never raises to its caller.
Its three failure paths — no backend configured, a raised backend error,
and a malformed response (`json.loads` raising) — each terminate in the
deterministic mock result, whose summary string carries the originating
error text rendered by `str()` (`"None"` on the no-backend path). -/
theorem analyze_never_fails_outward (loads : String → Except String Json)
    (client : Option (String → GenOutcome)) (jd cv nm : String) :
    (client = none → analyze loads client jd cv nm = _mock_response nm none) ∧
    (∀ gen e, client = some gen → gen (prompt jd cv nm) = .raise e →
      analyze loads client jd cv nm = _mock_response nm (some e)) ∧
    (∀ gen t e, client = some gen → gen (prompt jd cv nm) = .ok t →
      loads (String.mk (fenceClean t.toList)) = .error e →
      analyze loads client jd cv nm = _mock_response nm (some e)) ∧
    (∀ r, getPath2 (_mock_response nm r) "analysis" "summary" =
      some (.str ("Mock analiz (API hatası veya yok: " ++ pyStr r ++ ")"))) := by
  refine ⟨?_, ?_, ?_, ?_⟩
  · intro h; subst h; rfl
  · intro gen e hc hg; subst hc; simp [analyze, hg]
  · intro gen t e hc hg hl
    subst hc
    simp only [String.toList] at hl
    simp [analyze, hg, hl]
  · intro r; rfl

/-- Witness for C1: each of the three failure paths, at concrete stubs. -/
theorem analyze_never_fails_outward_witness :
    analyze loads0 none "" "" "Ayşe" = _mock_response "Ayşe" none ∧
    analyze loads0 (some genRaise) "" "" "Ayşe" = _mock_response "Ayşe" (some "boom") ∧
    analyze loads0 (some genOk) "" "" "Ayşe" = _mock_response "Ayşe" (some "bad json") :=
  ⟨(analyze_never_fails_outward loads0 none "" "" "Ayşe").1 rfl,
   (analyze_never_fails_outward loads0 (some genRaise) "" "" "Ayşe").2.1
     genRaise "boom" rfl rfl,
   (analyze_never_fails_outward loads0 (some genOk) "" "" "Ayşe").2.2.1
     genOk "notjson" "bad json" rfl rfl rfl⟩

/-- C2 (retry policy, modelled from the spec since this source revision
calls the backend exactly once): a stub failing rate-limited on every
attempt yields exactly 3 attempts, sleeps [30, 60] (none after the last
attempt) and `QuotaExhausted`; a stub failing with any other error on the
first call yields exactly 1 attempt, no sleep, and `UpstreamFailure`. -/
theorem retryPolicy_schedule (call : Nat → CallResult) :
    (∀ f : Nat → String, (∀ a, call a = .rateLimited (f a)) →
      RetryPolicy.execute call = ⟨3, [30, 60], .error .QuotaExhausted⟩) ∧
    (∀ m, call 1 = .failed m →
      RetryPolicy.execute call = ⟨1, [], .error .UpstreamFailure⟩) := by
  constructor
  · intro f h
    simp [RetryPolicy.execute, retryAux, h, RetryPolicy.maxAttempts,
      RetryPolicy.backoffBaseSeconds]
  · intro m h
    simp [RetryPolicy.execute, retryAux, h]

/-- Witness for C2 at concrete backend stubs. -/
theorem retryPolicy_schedule_witness :
    RetryPolicy.execute stubRL = ⟨3, [30, 60], .error .QuotaExhausted⟩ ∧
    RetryPolicy.execute stubUF = ⟨1, [], .error .UpstreamFailure⟩ :=
  ⟨(retryPolicy_schedule stubRL).1 (fun _ => "429 RESOURCE_EXHAUSTED") (fun _ => rfl),
   (retryPolicy_schedule stubUF).2 "500 internal error" rfl⟩

/-- Counterexample to C4: the mock result for "Alice" carries no `isMock`
field at all — its only top-level fields are `candidate_name`, `scores`
and `analysis` — so a caller cannot find `isMock=true` on it. -/
theorem mock_isMock_counterexample :
    (_mock_response "Alice" (some "x")).get "isMock" = none ∧
    keysOf (_mock_response "Alice" (some "x")) = ["candidate_name", "scores", "analysis"] :=
  ⟨rfl, rfl⟩

/-- C4 as amended: every fallback (mock) result carries no `isMock` field;
its top-level fields are exactly `candidate_name`, `scores` and `analysis`,
so a caller cannot distinguish a real analysis from a fallback by an
`isMock` field (only the fixed mock summary text identifies it). -/
theorem mock_carries_no_isMock (name : String) (error : Option String) :
    (_mock_response name error).get "isMock" = none ∧
    keysOf (_mock_response name error) = ["candidate_name", "scores", "analysis"] :=
  ⟨rfl, rfl⟩

/-- C5: the mock producer is a pure function — identical `(name, reason)`
arguments give identical results — with the fixed scores
`skill_match = 70`, `experience_match = 80`, `keyword_match = 75`,
`total_score = 75`, and a summary that embeds the rendered reason
verbatim in a fixed template. -/
theorem mock_deterministic_fixed_scores (name : String) (reason : Option String) :
    _mock_response name reason = _mock_response name reason ∧
    getPath2 (_mock_response name reason) "scores" "skill_match" = some (.num 70) ∧
    getPath2 (_mock_response name reason) "scores" "experience_match" = some (.num 80) ∧
    getPath2 (_mock_response name reason) "scores" "keyword_match" = some (.num 75) ∧
    getPath2 (_mock_response name reason) "scores" "total_score" = some (.num 75) ∧
    getPath2 (_mock_response name reason) "analysis" "summary" =
      some (.str ("Mock analiz (API hatası veya yok: " ++ pyStr reason ++ ")")) :=
  ⟨rfl, rfl, rfl, rfl, rfl, rfl⟩

/-- Counterexample to C8: with no backend configured the result for "Alice"
has no `isMock` field (so it is not `true` there). -/
theorem analyze_no_backend_isMock_counterexample :
    (analyze loads0 none "jd" "cv" "Alice").get "isMock" = none := rfl

/-- C8 as amended: when no generation backend is configured, `analyze`
returns the mock result immediately — no backend call is made (the result
does not depend on any generation function) and no retry or sleep exists on
this path — with `candidate_name` equal to the input name exactly; the
result carries no `isMock` field. -/
theorem analyze_no_backend_immediate_mock (loads : String → Except String Json)
    (jd cv nm : String) :
    analyze loads none jd cv nm = _mock_response nm none ∧
    (analyze loads none jd cv nm).get "candidate_name" = some (.str nm) ∧
    (analyze loads none jd cv nm).get "isMock" = none :=
  ⟨rfl, rfl, rfl⟩

/-- Counterexample to C3: normalization neither produces an `isMock` field
nor clamps scores to [0,100] — a stored `skill_match` of 150 passes through
unchanged — and the empty raw object is skipped entirely by the truthiness
guard rather than normalized. -/
theorem normalization_counterexample :
    projectCandidate cBad3 = .ok (some eBad3) ∧
    getPath2 eBad3 "scores" "skillMatch" = some (Json.num 150) ∧
    eBad3.get "isMock" = none ∧
    projectCandidate [("analysis_result", Json.obj [])] = .ok none :=
  ⟨rfl, rfl, rfl, rfl⟩

/-- C3 as amended: for every raw object that reaches the display
normalization (with dict-valued or absent `scores`/`analysis`), the
normalized entry always carries exactly the fields `candidateName`,
`scores.totalScore/skillMatch/experienceMatch/keywordMatch`,
`analysis.summary/strengths/missingSkills` and `isError` (no `isMock`),
with absent numeric fields defaulted to 0, an absent summary defaulted to
the fixed placeholder, and absent sequences defaulted to empty; present
score values are passed through without clamping. -/
theorem normalization_completeness (c res scores analysis : List (String × Json)) :
    keysOf (projEntry c res scores analysis) =
      ["candidateName", "scores", "analysis", "isError"] ∧
    ((projEntry c res scores analysis).get "scores").map keysOf =
      some ["totalScore", "skillMatch", "experienceMatch", "keywordMatch"] ∧
    ((projEntry c res scores analysis).get "analysis").map keysOf =
      some ["summary", "strengths", "missingSkills"] ∧
    (scores.lookup "total_score" = none →
      getPath2 (projEntry c res scores analysis) "scores" "totalScore" = some (.num 0)) ∧
    (scores.lookup "skill_match" = none →
      getPath2 (projEntry c res scores analysis) "scores" "skillMatch" = some (.num 0)) ∧
    (scores.lookup "experience_match" = none →
      getPath2 (projEntry c res scores analysis) "scores" "experienceMatch" = some (.num 0)) ∧
    (scores.lookup "keyword_match" = none →
      getPath2 (projEntry c res scores analysis) "scores" "keywordMatch" = some (.num 0)) ∧
    (analysis.lookup "summary" = none →
      getPath2 (projEntry c res scores analysis) "analysis" "summary" =
        some (.str "Özet yok")) ∧
    (analysis.lookup "strengths" = none →
      getPath2 (projEntry c res scores analysis) "analysis" "strengths" =
        some (.arr [])) ∧
    (analysis.lookup "missing_skills" = none →
      getPath2 (projEntry c res scores analysis) "analysis" "missingSkills" =
        some (.arr [])) := by
  refine ⟨rfl, rfl, rfl, ?_, ?_, ?_, ?_, ?_, ?_, ?_⟩ <;>
    (intro h; simp [projEntry, getPath2, Json.get, List.lookup, h])

/-- Witness for C3 (amended) at the empty raw object: all defaults. -/
theorem normalization_completeness_witness :
    keysOf (projEntry [] [] [] []) = ["candidateName", "scores", "analysis", "isError"] ∧
    getPath2 (projEntry [] [] [] []) "scores" "totalScore" = some (.num 0) ∧
    getPath2 (projEntry [] [] [] []) "scores" "skillMatch" = some (.num 0) ∧
    getPath2 (projEntry [] [] [] []) "scores" "experienceMatch" = some (.num 0) ∧
    getPath2 (projEntry [] [] [] []) "scores" "keywordMatch" = some (.num 0) ∧
    getPath2 (projEntry [] [] [] []) "analysis" "summary" = some (.str "Özet yok") ∧
    getPath2 (projEntry [] [] [] []) "analysis" "strengths" = some (.arr []) ∧
    getPath2 (projEntry [] [] [] []) "analysis" "missingSkills" = some (.arr []) :=
  ⟨(normalization_completeness [] [] [] []).1,
   (normalization_completeness [] [] [] []).2.2.2.1 rfl,
   (normalization_completeness [] [] [] []).2.2.2.2.1 rfl,
   (normalization_completeness [] [] [] []).2.2.2.2.2.1 rfl,
   (normalization_completeness [] [] [] []).2.2.2.2.2.2.1 rfl,
   (normalization_completeness [] [] [] []).2.2.2.2.2.2.2.1 rfl,
   (normalization_completeness [] [] [] []).2.2.2.2.2.2.2.2.1 rfl,
   (normalization_completeness [] [] [] []).2.2.2.2.2.2.2.2.2 rfl⟩

/-- C7: a candidate whose stored `analysis_result` is absent or `None`
contributes no display entry (skipped, not an error); on the sample job
with two candidates, one of them with `analysis_result = None`, `get_jobs`
produces a display list of length 1 whose single entry uses exactly the
camelCase field names `totalScore`, `skillMatch`, `experienceMatch`,
`keywordMatch` and `missingSkills`. -/
theorem projection_skips_absent_results (c : List (String × Json)) :
    ((c.lookup "analysis_result" = none ∨ c.lookup "analysis_result" = some Json.null) →
      projectCandidate c = .ok none) ∧
    ((get_jobs [sampleJob]).head?.bind (fun j => j.get "analysisResults")).bind arrLen =
      some 1 ∧
    (get_jobs [sampleJob]).head?.bind (fun j => j.get "analysisResults") =
      some (Json.arr [sampleEntry]) ∧
    (sampleEntry.get "scores").map keysOf =
      some ["totalScore", "skillMatch", "experienceMatch", "keywordMatch"] ∧
    (sampleEntry.get "analysis").map keysOf =
      some ["summary", "strengths", "missingSkills"] := by
  refine ⟨?_, rfl, rfl, rfl, rfl⟩
  intro h
  rcases h with h | h <;> (simp [projectCandidate, h, pyTruthy]; rfl)

/-- Witness for C7 at a candidate with `analysis_result = None`. -/
theorem projection_skips_absent_results_witness :
    projectCandidate [("name", Json.str "Veli"), ("analysis_result", Json.null)] =
      .ok none :=
  (projection_skips_absent_results
    [("name", Json.str "Veli"), ("analysis_result", Json.null)]).1 (Or.inr rfl)

/-- C9: `get_jobs` never raises to its caller — its body either succeeds,
in which case the job list is returned, or raises, in which case the
endpoint returns the empty list (not a partial result); a store whose
stored analysis result is a non-dict makes the body raise and the endpoint
return `[]`. -/
theorem get_jobs_absorbs_exceptions (docs : List JobDoc) :
    ((∃ r, getJobsBody docs = .ok r ∧ get_jobs docs = r) ∨
     (∃ e, getJobsBody docs = .error e ∧ get_jobs docs = [])) ∧
    get_jobs [⟨"j1", [], [⟨"c1", [("analysis_result", Json.str "oops")]⟩]⟩] = [] := by
  constructor
  · cases h : getJobsBody docs with
    | ok r => exact Or.inl ⟨r, rfl, by simp [get_jobs, h]⟩
    | error e => exact Or.inr ⟨e, rfl, by simp [get_jobs, h]⟩
  · rfl

/-- C10: when the stored analysis result has no `candidate_name` field, the
projected `candidateName` falls back to the candidate record's own `name`
field. -/
theorem projection_name_fallback (c res scores analysis : List (String × Json))
    (v : Json) (h1 : res.lookup "candidate_name" = none)
    (h2 : c.lookup "name" = some v) :
    (projEntry c res scores analysis).get "candidateName" = some v := by
  simp [projEntry, Json.get, List.lookup, h1, h2]

/-- Witness for C10: the result lacks `candidate_name`, the candidate
record's `name` is used. -/
theorem projection_name_fallback_witness :
    (projEntry [("name", Json.str "Zeynep")] [] [] []).get "candidateName" =
      some (Json.str "Zeynep") :=
  projection_name_fallback [("name", Json.str "Zeynep")] [] [] []
    (Json.str "Zeynep") rfl rfl
